import Mathlib

/-!
Shallow embedding of the FinancialAnalysis backend.

`src/backend/index_data.py` is the batch ingestion pipeline: `get_stock_info`
extracts a fixed record from a provider response, `process_stock` is the
per-identifier state machine (skip / fetch+normalize+store / record failure),
and `parallel_process_stocks` is the fail-fast driver.  `src/backend/main.py`
is the query service whose `research` handler validates the query and
forwards it to the vector store gateway.

Python runtime values are modelled by `PyVal` (with an opaque payload for
floats and arbitrary objects, since the code only inspects their type tags),
Python dicts by association lists with string keys, the external
collaborators (yfinance `Ticker(...).info` and the Pinecone vector store) by
an `Env` of fallible calls, and the two ledger files together with their
in-memory mirrors and the externally visible calls by an `IngestState`
threaded through the pipeline.
-/

namespace FinancialAnalysis

/-- Python runtime values as they occur in provider responses and
normalized records.  `float` carries an opaque payload (the code never
computes with floats, it only tests `isinstance`); `obj` stands for any
other Python object, carrying its `str()` rendering. -/
inductive PyVal where
  | none
  | bool (b : Bool)
  | int (n : Int)
  | float (payload : Int)
  | str (s : String)
  | list (xs : List PyVal)
  | obj (rep : String)
deriving Repr, BEq

/-- Python's `str(value)` builtin, as far as the ingestion code observes it. -/
def pyStr : PyVal → String
  | .none => "None"
  | .bool b => if b then "True" else "False"
  | .int n => toString n
  | .float p => "float " ++ toString p
  | .str s => s
  | .list xs => "[" ++ String.intercalate ", " (xs.attach.map (fun x => pyStr x.1)) ++ "]"
  | .obj r => r
decreasing_by
  have h := List.sizeOf_lt_of_mem x.2
  simp only [PyVal.list.sizeOf_spec]
  omega

/-- Python's truthiness test (`bool(value)`), used by the `or` in
`get_stock_info`. -/
def truthy : PyVal → Bool
  | .none => false
  | .bool b => b
  | .int n => n != 0
  | .float p => p != 0
  | .str s => !(s == "")
  | .list xs => !xs.isEmpty
  | .obj _ => true

/-- A Python dict with string keys, as an association list (insertion
ordered, as Python dicts are). -/
abbrev PyDict := List (String × PyVal)

/-- `d.get(k)` / `d[k]`-style lookup: the first binding of `k`, if any. -/
def dictGet (d : PyDict) (k : String) : Option PyVal :=
  (d.find? (fun p => p.1 == k)).map (fun p => p.2)

/-- `d.get(k, default)`: lookup with a fallback for a missing key
(a present `None` is returned as-is, exactly like Python). -/
def dictGetD (d : PyDict) (k : String) (default : PyVal) : PyVal :=
  (dictGet d k).getD default

/-- Python `x or default` applied to an optional lookup result:
a missing key gives `None`, and any falsy value is replaced. -/
def pyOr (x : Option PyVal) (default : PyVal) : PyVal :=
  match x with
  | Option.none => default
  | Option.some v => if truthy v then v else default

/-- The keys of a record, in order. -/
def dictKeys (d : PyDict) : List String := d.map (fun p => p.1)

/-- `get_stock_info` (index_data.py, lines 62-75): given the provider's
`stock_info` mapping, build the eight-field properties record.  Seven
fields use `dict.get` with default `"Information not available"`;
`Business Summary` uses `stock_info.get(...) or "No data available"`. -/
def get_stock_info (stock_info : PyDict) : PyDict :=
  [ ("Ticker", dictGetD stock_info "symbol" (.str "Information not available")),
    ("Name", dictGetD stock_info "longName" (.str "Information not available")),
    ("Business Summary", pyOr (dictGet stock_info "longBusinessSummary") (.str "No data available")),
    ("City", dictGetD stock_info "city" (.str "Information not available")),
    ("State", dictGetD stock_info "state" (.str "Information not available")),
    ("Country", dictGetD stock_info "country" (.str "Information not available")),
    ("Industry", dictGetD stock_info "industry" (.str "Information not available")),
    ("Sector", dictGetD stock_info "sector" (.str "Information not available")) ]

/-- One iteration of the metadata-cleaning loop in `process_stock`
(index_data.py, lines 88-94): `None` becomes a sentinel string, a list is
stringified element-wise (staying a list), any other non-scalar is
stringified, and scalars pass through. -/
def normalizeVal : PyVal → PyVal
  | .none => .str "No data available"
  | .list xs => .list (xs.map (fun item => .str (pyStr item)))
  | .str s => .str s
  | .int n => .int n
  | .float p => .float p
  | .bool b => .bool b
  | .obj r => .str r

/-- The whole cleaning loop `for key, value in stock_data.items(): ...`
applied to a record. -/
def normalizeRecord (d : PyDict) : PyDict :=
  d.map (fun p => (p.1, normalizeVal p.2))

/-- Is this value one of Python's `(str, int, float, bool)`? -/
def isScalar : PyVal → Bool
  | .str _ => true
  | .int _ => true
  | .float _ => true
  | .bool _ => true
  | _ => false

/-- A value the normalization loop can actually produce: a scalar, or a
list all of whose elements are strings. -/
def isCleanValue : PyVal → Bool
  | .list xs => xs.all (fun x => match x with | .str _ => true | _ => false)
  | v => isScalar v

/-- A langchain `Document` as `process_stock` builds it: free-text content
plus the normalized record as metadata. -/
structure Document where
  page_content : String
  metadata : PyDict
deriving Repr, BEq

/-- The mutable state `index_data.py` threads through one run: the two
in-memory ticker lists, the two ledger files (as their lists of appended
lines), and logs of the externally visible calls (provider fetches and
vector-store writes), used to state the frame conditions. -/
structure IngestState where
  successful_tickers : List String
  unsuccessful_tickers : List String
  successful_file : List String
  unsuccessful_file : List String
  fetch_calls : List String
  store_calls : List Document
deriving Repr, BEq

/-- Is this value a Python `str`? -/
def isStr : PyVal → Bool
  | .str _ => true
  | _ => false

/-- The `Business Summary` value `process_stock` reads back out of the
record that `get_stock_info` built. -/
def summaryValue (info : PyDict) : PyVal :=
  pyOr (dictGet info "longBusinessSummary") (.str "No data available")

/-- The document text: the summary itself when it is a string, otherwise
the sentinel (index_data.py, lines 83-85). -/
def descriptionOf (v : PyVal) : String :=
  match v with
  | .str s => s
  | _ => "No summary available"

/-- The document `process_stock` hands to `vectorstore.add_documents`
for a given provider response. -/
def builtDocument (info : PyDict) : Document :=
  ⟨descriptionOf (summaryValue info), normalizeRecord (get_stock_info info)⟩

/-- The external collaborators of the pipeline: `info` is
`yf.Ticker(symbol).info` (which may raise, carrying an exception message),
and `add_documents` is `vectorstore.add_documents` (likewise fallible). -/
structure Env where
  info : String → Except String PyDict
  add_documents : Document → Except String Unit

/-- The `except Exception` branch of `process_stock` (index_data.py,
lines 107-112): append the ticker to the unsuccessful ledger file and
in-memory list and return the error outcome string. -/
def recordFailure (st : IngestState) (stock_ticker msg : String) :
    IngestState × String :=
  ({ st with
      unsuccessful_file := st.unsuccessful_file ++ [stock_ticker],
      unsuccessful_tickers := st.unsuccessful_tickers ++ [stock_ticker] },
   "ERROR processing " ++ stock_ticker ++ ": " ++ msg)

/-- `process_stock` (index_data.py, lines 78-112).  Skips tickers already
in the successful in-memory list; otherwise fetches the provider info
(logged in `fetch_calls`), builds the eight-field record, takes
`stock_data["Business Summary"]` as the document text unless it is not a
string (then `"No summary available"`), cleans the metadata, hands the
document to the vector store (logged in `store_calls`), and records the
terminal outcome in exactly one ledger.  A missing `"Business Summary"`
key would be a `KeyError` caught by the same handler (this branch is in
fact unreachable, since `get_stock_info` always produces the key). -/
def process_stock (env : Env) (st : IngestState) (stock_ticker : String) :
    IngestState × String :=
  if st.successful_tickers.contains stock_ticker then
    (st, "Already processed " ++ stock_ticker)
  else
    let st1 := { st with fetch_calls := st.fetch_calls ++ [stock_ticker] }
    match env.info stock_ticker with
    | .error e => recordFailure st1 stock_ticker e
    | .ok info =>
      let stock_data := get_stock_info info
      match dictGet stock_data "Business Summary" with
      | Option.none => recordFailure st1 stock_ticker "KeyError"
      | Option.some bs =>
        let stock_description := descriptionOf bs
        let cleaned := normalizeRecord stock_data
        let doc : Document := ⟨stock_description, cleaned⟩
        let st2 := { st1 with store_calls := st1.store_calls ++ [doc] }
        match env.add_documents doc with
        | .error e => recordFailure st2 stock_ticker e
        | .ok _ =>
          ({ st2 with
              successful_file := st2.successful_file ++ [stock_ticker],
              successful_tickers := st2.successful_tickers ++ [stock_ticker] },
           "Processed " ++ stock_ticker ++ " successfully")

/-- Does an outcome string mark a failure, as the driver tests it with
`result.startswith("ERROR")`?  Python's `startswith` asks whether the
pattern is a prefix of the character sequence. -/
def isErrorOutcome (r : String) : Bool := "ERROR".data.isPrefixOf r.data

/-- `parallel_process_stocks` (index_data.py, lines 115-135), collapsed to
the order in which completed task outcomes are collected (the thread pool
yields them in completion order; the model takes that order as the list
order).  The driver examines each outcome in turn; on the first outcome
starting with `"ERROR"` it stops and raises `SystemExit(1)` (exit code
`some 1`); if it drains all outcomes without an error it returns normally
(`none`). -/
def parallel_process_stocks (env : Env) (st : IngestState) :
    List String → IngestState × Option Nat
  | [] => (st, Option.none)
  | t :: rest =>
    let step := process_stock env st t
    if isErrorOutcome step.2 then (step.1, Option.some 1)
    else parallel_process_stocks env step.1 rest

/-- The outcome strings the driver collects before it stops: every
outcome up to and including the first error outcome. -/
def collectedOutcomes (env : Env) (st : IngestState) :
    List String → List String
  | [] => []
  | t :: rest =>
    let step := process_stock env st t
    if isErrorOutcome step.2 then [step.2]
    else step.2 :: collectedOutcomes env step.1 rest

/-- The `HTTPException` raised by the query service. -/
structure HTTPErrorModel where
  status_code : Nat
  detail : String
deriving Repr, BEq

/-- A `SearchResult` of `main.py`: the document text plus its metadata. -/
structure SearchResult where
  text : String
  metadata : PyDict
deriving Repr, BEq

/-- A `SearchResponse` of `main.py`: the echoed query and the results. -/
structure SearchResponse where
  query : String
  results : List SearchResult
deriving Repr, BEq

/-- `research` (main.py, lines 108-119).  The gateway
(`vectorstore.similarity_search`) is a fallible parameter; the second
component of the result logs the `(query, k)` gateway calls the handler
makes, to state that the empty-query rejection happens before any call.
An empty query raises 400; a gateway exception is mapped to an opaque
500; otherwise each ranked match becomes a `SearchResult` in order. -/
def research (similarity_search : String → Nat → Except String (List Document))
    (query : String) (k : Nat) :
    Except HTTPErrorModel SearchResponse × List (String × Nat) :=
  if query = "" then
    (.error ⟨400, "Query parameter is required."⟩, [])
  else
    match similarity_search query k with
    | .error _ => (.error ⟨500, "Internal Server Error"⟩, [(query, k)])
    | .ok results =>
      (.ok ⟨query, results.map (fun r => ⟨r.page_content, r.metadata⟩)⟩,
       [(query, k)])

/-! ### Helper lemmas

Shape facts about the three outcome strings and the branches of
`process_stock`, shared by several of the claim theorems below. -/

theorem isErrorOutcome_already (t : String) :
    isErrorOutcome ("Already processed " ++ t) = false := rfl

theorem isErrorOutcome_processed (t : String) :
    isErrorOutcome ("Processed " ++ t ++ " successfully") = false := rfl

theorem isErrorOutcome_failure (t e : String) :
    isErrorOutcome ("ERROR processing " ++ t ++ ": " ++ e) = true := rfl

theorem dictGet_get_stock_info_summary (info : PyDict) :
    dictGet (get_stock_info info) "Business Summary" =
      Option.some (summaryValue info) := rfl

theorem process_stock_skip (env : Env) (st : IngestState) (t : String)
    (h : st.successful_tickers.contains t = true) :
    process_stock env st t = (st, "Already processed " ++ t) := by
  have hm : t ∈ st.successful_tickers := by simpa using h
  simp [process_stock, hm]

theorem process_stock_fetch_error (env : Env) (st : IngestState) (t e : String)
    (hskip : st.successful_tickers.contains t = false)
    (hinfo : env.info t = .error e) :
    process_stock env st t =
      ({ st with
          fetch_calls := st.fetch_calls ++ [t],
          unsuccessful_file := st.unsuccessful_file ++ [t],
          unsuccessful_tickers := st.unsuccessful_tickers ++ [t] },
       "ERROR processing " ++ t ++ ": " ++ e) := by
  have hm : t ∉ st.successful_tickers := by simpa using hskip
  simp [process_stock, hm, hinfo, recordFailure]

theorem process_stock_store_error (env : Env) (st : IngestState)
    (t e : String) (info : PyDict)
    (hskip : st.successful_tickers.contains t = false)
    (hinfo : env.info t = .ok info)
    (hadd : env.add_documents (builtDocument info) = .error e) :
    process_stock env st t =
      ({ st with
          fetch_calls := st.fetch_calls ++ [t],
          store_calls := st.store_calls ++ [builtDocument info],
          unsuccessful_file := st.unsuccessful_file ++ [t],
          unsuccessful_tickers := st.unsuccessful_tickers ++ [t] },
       "ERROR processing " ++ t ++ ": " ++ e) := by
  have hm : t ∉ st.successful_tickers := by simpa using hskip
  simp only [builtDocument] at hadd
  simp [process_stock, hm, hinfo, dictGet_get_stock_info_summary, hadd,
    builtDocument, recordFailure]

theorem process_stock_success (env : Env) (st : IngestState)
    (t : String) (info : PyDict)
    (hskip : st.successful_tickers.contains t = false)
    (hinfo : env.info t = .ok info)
    (hadd : env.add_documents (builtDocument info) = .ok ()) :
    process_stock env st t =
      ({ st with
          fetch_calls := st.fetch_calls ++ [t],
          store_calls := st.store_calls ++ [builtDocument info],
          successful_file := st.successful_file ++ [t],
          successful_tickers := st.successful_tickers ++ [t] },
       "Processed " ++ t ++ " successfully") := by
  have hm : t ∉ st.successful_tickers := by simpa using hskip
  simp only [builtDocument] at hadd
  simp [process_stock, hm, hinfo, dictGet_get_stock_info_summary, hadd,
    builtDocument, recordFailure]

theorem run_exit_none_or_one (env : Env) (st : IngestState)
    (tickers : List String) :
    (parallel_process_stocks env st tickers).2 = Option.none ∨
    (parallel_process_stocks env st tickers).2 = Option.some 1 := by
  induction tickers generalizing st with
  | nil => exact Or.inl rfl
  | cons t rest ih =>
    simp only [parallel_process_stocks]
    cases h : isErrorOutcome (process_stock env st t).2 <;> simp [h]
    exact ih _

theorem run_exit_some_iff_error (env : Env) (st : IngestState)
    (tickers : List String) :
    (parallel_process_stocks env st tickers).2 = Option.some 1 ↔
    (collectedOutcomes env st tickers).any isErrorOutcome = true := by
  induction tickers generalizing st with
  | nil => simp [parallel_process_stocks, collectedOutcomes]
  | cons t rest ih =>
    simp only [parallel_process_stocks, collectedOutcomes]
    cases h : isErrorOutcome (process_stock env st t).2 <;> simp [h]
    simpa using ih _

theorem collected_error_is_last (env : Env) (st : IngestState)
    (tickers : List String) :
    ∀ pre r post, collectedOutcomes env st tickers = pre ++ r :: post →
      isErrorOutcome r = true → post = [] := by
  induction tickers generalizing st with
  | nil =>
    intro pre r post h _
    simp [collectedOutcomes] at h
  | cons t rest ih =>
    intro pre r post h hr
    simp only [collectedOutcomes] at h
    cases he : isErrorOutcome (process_stock env st t).2 <;> rw [he] at h
    · simp only [if_neg Bool.false_ne_true] at h
      cases pre with
      | nil =>
        simp at h
        rw [h.1] at he
        rw [he] at hr
        exact absurd hr (by simp)
      | cons a pre =>
        simp at h
        exact ih _ pre r post h.2 hr
    · simp only [if_pos rfl] at h
      have hlen := congrArg List.length h
      simp [List.length_append] at hlen
      have : post.length = 0 := by omega
      exact List.length_eq_zero.mp this

/-! ### Concrete inputs used by the witnesses -/

/-- A small provider response. -/
def infoA : PyDict :=
  [("symbol", PyVal.str "AAPL"),
   ("longBusinessSummary", PyVal.str "Designs phones.")]

/-- A provider response whose business summary is a list, not a string. -/
def infoListSummary : PyDict :=
  [("symbol", PyVal.str "LST"),
   ("longBusinessSummary", PyVal.list [PyVal.str "part one", PyVal.int 2])]

/-- An environment where only the ticker `"BAD"` fails to fetch. -/
def envDemo : Env :=
  { info := fun t => if t == "BAD" then .error "boom" else .ok infoA,
    add_documents := fun _ => .ok () }

/-- An environment whose vector-store write always fails. -/
def envStoreFail : Env :=
  { info := fun _ => .ok infoA,
    add_documents := fun _ => .error "store down" }

/-- An environment returning the list-valued business summary. -/
def envListSummary : Env :=
  { info := fun _ => .ok infoListSummary,
    add_documents := fun _ => .ok () }

/-- The state of a fresh run: empty ledgers, no calls made. -/
def stEmpty : IngestState := ⟨[], [], [], [], [], []⟩

/-- A state whose successful ledger already holds `"AAPL"`. -/
def stDone : IngestState := ⟨["AAPL"], [], ["AAPL"], [], [], []⟩

/-! ### Claim theorems -/

/-- C1: an identifier already in the successful in-memory list makes
`process_stock` return the skipped outcome with the state—ledger files,
in-memory lists, fetch log and store log—unchanged, and a whole run over
only already-successful identifiers leaves the state unchanged and exits
normally. -/
theorem skipped_ticker_run_is_noop (env : Env) (st : IngestState) :
    (∀ t, st.successful_tickers.contains t = true →
      process_stock env st t = (st, "Already processed " ++ t)) ∧
    (∀ tickers : List String,
      (∀ x ∈ tickers, st.successful_tickers.contains x = true) →
      parallel_process_stocks env st tickers = (st, Option.none)) := by
  refine ⟨fun t h => process_stock_skip env st t h, fun tickers => ?_⟩
  induction tickers with
  | nil => intro _; rfl
  | cons t rest ih =>
    intro hall
    have hskip := process_stock_skip env st t (hall t (List.mem_cons_self t rest))
    simp only [parallel_process_stocks, hskip, isErrorOutcome_already,
      if_neg Bool.false_ne_true]
    exact ih fun x hx => hall x (List.mem_cons_of_mem t hx)

/-- C1 witness: with `"AAPL"` already in the successful ledger,
processing it again and re-running over `["AAPL", "AAPL"]` are no-ops. -/
theorem skipped_ticker_run_is_noop_witness :
    process_stock envDemo stDone "AAPL" = (stDone, "Already processed AAPL") ∧
    parallel_process_stocks envDemo stDone ["AAPL", "AAPL"] =
      (stDone, Option.none) := by
  have h := skipped_ticker_run_is_noop envDemo stDone
  exact ⟨(h.1 "AAPL" (by decide)).trans rfl, h.2 ["AAPL", "AAPL"] (by decide)⟩

/-- C2 counterexample: the claim says every normalized value is a
string, int, float, or bool, but a list value is kept as a list (of
strings), so the record for a list-valued field refutes it. -/
theorem normalizeRecord_list_value_not_scalar :
    ¬ ((normalizeRecord [("companyOfficers", PyVal.list [PyVal.int 1])]).all
        (fun p => isScalar p.2) = true) := by decide

/-- C2 as amended: normalization is total (it is a Lean function, defined
for every input mapping), and every value of the returned record is a
string, int, float, bool, or a list all of whose elements are strings. -/
theorem normalizeRecord_values_clean (d : PyDict) :
    (normalizeRecord d).all (fun p => isCleanValue p.2) = true := by
  induction d with
  | nil => rfl
  | cons p rest ih =>
    simp only [normalizeRecord, List.map_cons, List.all_cons, Bool.and_eq_true]
    refine ⟨?_, by simpa [normalizeRecord] using ih⟩
    cases p.2 <;>
      simp [normalizeVal, isCleanValue, isScalar, List.all_map, List.all_eq_true]

/-- C3: whenever the provider fetch or the vector-store write fails for a
not-yet-successful identifier, `process_stock` appends exactly that one
identifier to the unsuccessful ledger file and its in-memory list, leaves
the successful ledger untouched, and returns an error outcome whose
message carries the exception's message. -/
theorem failure_recorded_durably (env : Env) (st : IngestState) (t e : String)
    (hskip : st.successful_tickers.contains t = false)
    (herr : env.info t = .error e ∨
      ∃ info, env.info t = .ok info ∧
        env.add_documents (builtDocument info) = .error e) :
    (process_stock env st t).1.unsuccessful_file =
      st.unsuccessful_file ++ [t] ∧
    (process_stock env st t).1.unsuccessful_tickers =
      st.unsuccessful_tickers ++ [t] ∧
    (process_stock env st t).1.successful_file = st.successful_file ∧
    (process_stock env st t).1.successful_tickers = st.successful_tickers ∧
    isErrorOutcome (process_stock env st t).2 = true ∧
    ∃ a, (process_stock env st t).2 = a ++ e := by
  rcases herr with h | ⟨info, hi, ha⟩
  · rw [process_stock_fetch_error env st t e hskip h]
    exact ⟨rfl, rfl, rfl, rfl, isErrorOutcome_failure t e,
      "ERROR processing " ++ t ++ ": ", rfl⟩
  · rw [process_stock_store_error env st t e info hskip hi ha]
    exact ⟨rfl, rfl, rfl, rfl, isErrorOutcome_failure t e,
      "ERROR processing " ++ t ++ ": ", rfl⟩

/-- C3 witness: the failing fetch for `"BAD"` lands in the unsuccessful
ledger and the outcome ends with the exception message `"boom"`. -/
theorem failure_recorded_durably_witness :
    (process_stock envDemo stEmpty "BAD").1.unsuccessful_file = ["BAD"] ∧
    (process_stock envDemo stEmpty "BAD").1.successful_file = [] ∧
    ∃ a, (process_stock envDemo stEmpty "BAD").2 = a ++ "boom" := by
  have h := failure_recorded_durably envDemo stEmpty "BAD" "boom" rfl
    (Or.inl rfl)
  exact ⟨h.1, h.2.2.1, h.2.2.2.2.2⟩

/-- C4: the driver only ever returns normally (`none`) or raises
`SystemExit(1)` (`some 1`, a non-zero status); it exits with status 1
exactly when an error outcome is collected; and the first error outcome
ends the collection (no outcome is collected after it). -/
theorem fail_fast_first_error (env : Env) (st : IngestState)
    (tickers : List String) :
    ((parallel_process_stocks env st tickers).2 = Option.none ∨
     (parallel_process_stocks env st tickers).2 = Option.some 1) ∧
    ((parallel_process_stocks env st tickers).2 = Option.some 1 ↔
     (collectedOutcomes env st tickers).any isErrorOutcome = true) ∧
    (∀ pre r post, collectedOutcomes env st tickers = pre ++ r :: post →
      isErrorOutcome r = true → post = []) :=
  ⟨run_exit_none_or_one env st tickers,
   run_exit_some_iff_error env st tickers,
   collected_error_is_last env st tickers⟩

/-- C4 witness: a run that hits the failing ticker `"BAD"` exits with
status 1, while a run with no failures returns normally. -/
theorem fail_fast_first_error_witness :
    (parallel_process_stocks envDemo stEmpty ["GOOD", "BAD", "NEVER"]).2 =
      Option.some 1 ∧
    (parallel_process_stocks envDemo stEmpty ["GOOD"]).2 = Option.none := by
  constructor
  · exact (fail_fast_first_error envDemo stEmpty ["GOOD", "BAD", "NEVER"]).2.1.mpr
      (by decide)
  · rcases (fail_fast_first_error envDemo stEmpty ["GOOD"]).1 with h | h
    · exact h
    · exact absurd ((fail_fast_first_error envDemo stEmpty ["GOOD"]).2.1.mp h)
        (by decide)

/-- C6: the outcome string of `process_stock` is a function of the
environment, the identifier, and the successful in-memory list alone;
two states that agree on the successful list—however their unsuccessful
ledgers differ—yield the same outcome, so previously failed identifiers
are retried. -/
theorem outcome_independent_of_unsuccessful (env : Env)
    (st1 st2 : IngestState) (t : String)
    (h : st1.successful_tickers = st2.successful_tickers) :
    (process_stock env st1 t).2 = (process_stock env st2 t).2 := by
  by_cases hc : st2.successful_tickers.contains t = true
  · rw [process_stock_skip env st1 t (h ▸ hc), process_stock_skip env st2 t hc]
  · have hc2 : st2.successful_tickers.contains t = false :=
      Bool.eq_false_iff.mpr hc
    have hc1 : st1.successful_tickers.contains t = false := by rw [h]; exact hc2
    cases hi : env.info t with
    | error e =>
      rw [process_stock_fetch_error env st1 t e hc1 hi,
        process_stock_fetch_error env st2 t e hc2 hi]
    | ok info =>
      cases ha : env.add_documents (builtDocument info) with
      | error e =>
        rw [process_stock_store_error env st1 t e info hc1 hi ha,
          process_stock_store_error env st2 t e info hc2 hi ha]
      | ok u =>
        cases u
        rw [process_stock_success env st1 t info hc1 hi ha,
          process_stock_success env st2 t info hc2 hi ha]

/-- C6 witness: a state with a populated unsuccessful ledger gives the
same outcome for `"AAPL"` as the empty state. -/
theorem outcome_independent_of_unsuccessful_witness :
    (process_stock envDemo stEmpty "AAPL").2 =
      (process_stock envDemo ⟨[], ["X"], [], ["X"], [], []⟩ "AAPL").2 :=
  outcome_independent_of_unsuccessful envDemo stEmpty
    ⟨[], ["X"], [], ["X"], [], []⟩ "AAPL" rfl

theorem get_stock_info_Ticker (info : PyDict) :
    dictGet (get_stock_info info) "Ticker" =
      Option.some (dictGetD info "symbol" (PyVal.str "Information not available")) := rfl

theorem get_stock_info_Name (info : PyDict) :
    dictGet (get_stock_info info) "Name" =
      Option.some (dictGetD info "longName" (PyVal.str "Information not available")) := rfl

theorem get_stock_info_City (info : PyDict) :
    dictGet (get_stock_info info) "City" =
      Option.some (dictGetD info "city" (PyVal.str "Information not available")) := rfl

theorem get_stock_info_State (info : PyDict) :
    dictGet (get_stock_info info) "State" =
      Option.some (dictGetD info "state" (PyVal.str "Information not available")) := rfl

theorem get_stock_info_Country (info : PyDict) :
    dictGet (get_stock_info info) "Country" =
      Option.some (dictGetD info "country" (PyVal.str "Information not available")) := rfl

theorem get_stock_info_Industry (info : PyDict) :
    dictGet (get_stock_info info) "Industry" =
      Option.some (dictGetD info "industry" (PyVal.str "Information not available")) := rfl

theorem get_stock_info_Sector (info : PyDict) :
    dictGet (get_stock_info info) "Sector" =
      Option.some (dictGetD info "sector" (PyVal.str "Information not available")) := rfl

/-- C7: for any provider response, `get_stock_info` returns exactly the
eight fields in order; every field whose source attribute is missing is
the default `"Information not available"`, except `Business Summary`,
which is `"No data available"` when its source attribute is missing or
`None`. -/
theorem get_stock_info_fields_defaults (info : PyDict) :
    dictKeys (get_stock_info info) =
      ["Ticker", "Name", "Business Summary", "City", "State", "Country",
       "Industry", "Sector"] ∧
    (dictGet info "symbol" = Option.none →
      dictGet (get_stock_info info) "Ticker" =
        Option.some (PyVal.str "Information not available")) ∧
    (dictGet info "longName" = Option.none →
      dictGet (get_stock_info info) "Name" =
        Option.some (PyVal.str "Information not available")) ∧
    (dictGet info "city" = Option.none →
      dictGet (get_stock_info info) "City" =
        Option.some (PyVal.str "Information not available")) ∧
    (dictGet info "state" = Option.none →
      dictGet (get_stock_info info) "State" =
        Option.some (PyVal.str "Information not available")) ∧
    (dictGet info "country" = Option.none →
      dictGet (get_stock_info info) "Country" =
        Option.some (PyVal.str "Information not available")) ∧
    (dictGet info "industry" = Option.none →
      dictGet (get_stock_info info) "Industry" =
        Option.some (PyVal.str "Information not available")) ∧
    (dictGet info "sector" = Option.none →
      dictGet (get_stock_info info) "Sector" =
        Option.some (PyVal.str "Information not available")) ∧
    ((dictGet info "longBusinessSummary" = Option.none ∨
      dictGet info "longBusinessSummary" = Option.some PyVal.none) →
      dictGet (get_stock_info info) "Business Summary" =
        Option.some (PyVal.str "No data available")) := by
  refine ⟨rfl, fun h => ?_, fun h => ?_, fun h => ?_, fun h => ?_, fun h => ?_,
    fun h => ?_, fun h => ?_, fun h => ?_⟩
  · rw [get_stock_info_Ticker]; simp [dictGetD, h]
  · rw [get_stock_info_Name]; simp [dictGetD, h]
  · rw [get_stock_info_City]; simp [dictGetD, h]
  · rw [get_stock_info_State]; simp [dictGetD, h]
  · rw [get_stock_info_Country]; simp [dictGetD, h]
  · rw [get_stock_info_Industry]; simp [dictGetD, h]
  · rw [get_stock_info_Sector]; simp [dictGetD, h]
  · rw [dictGet_get_stock_info_summary]
    rcases h with h | h <;> simp [summaryValue, pyOr, h, truthy]

/-- C7 witness: on the empty provider response every field takes its
documented default. -/
theorem get_stock_info_fields_defaults_witness :
    dictGet (get_stock_info []) "Ticker" =
      Option.some (PyVal.str "Information not available") ∧
    dictGet (get_stock_info []) "Sector" =
      Option.some (PyVal.str "Information not available") ∧
    dictGet (get_stock_info []) "Business Summary" =
      Option.some (PyVal.str "No data available") := by
  have h := get_stock_info_fields_defaults []
  exact ⟨h.2.1 rfl, h.2.2.2.2.2.2.2.1 rfl, h.2.2.2.2.2.2.2.2 (Or.inl rfl)⟩

/-- The five-match ranked gateway stub of the spec's test. -/
def rankedStub : List Document :=
  [⟨"match0", []⟩, ⟨"match1", []⟩, ⟨"match2", []⟩, ⟨"match3", []⟩,
   ⟨"match4", []⟩]

/-- A gateway that finds nothing. -/
def gwEmpty : String → Nat → Except String (List Document) :=
  fun _ _ => .ok []

/-- C8: for a non-empty query, the handler echoes the query and returns
exactly the first `k` matches of the gateway's ranked sequence, in
order, each result's text being the match's content with its metadata
preserved. -/
theorem research_returns_top_k (ranked : List Document) (query : String)
    (k : Nat) (h : ¬ query = "") :
    (research (fun _ n => .ok (ranked.take n)) query k).1 =
      .ok ⟨query,
        (ranked.take k).map (fun r => ⟨r.page_content, r.metadata⟩)⟩ := by
  simp [research, h]

/-- C8 witness: against the five-match stub, `k = 3` returns exactly the
top three in the stub's order. -/
theorem research_returns_top_k_witness :
    (research (fun _ n => .ok (rankedStub.take n)) "oil company" 3).1 =
      .ok ⟨"oil company",
        [⟨"match0", []⟩, ⟨"match1", []⟩, ⟨"match2", []⟩]⟩ :=
  (research_returns_top_k rankedStub "oil company" 3 (by decide)).trans rfl

/-- C9: an empty query is rejected with status 400 before any gateway
call is made, and the gateway is only ever invoked for a non-empty
query. -/
theorem research_empty_query_rejected
    (gw : String → Nat → Except String (List Document)) (k : Nat) :
    (research gw "" k).1 = .error ⟨400, "Query parameter is required."⟩ ∧
    (research gw "" k).2 = [] ∧
    (∀ q c, c ∈ (research gw q k).2 → ¬ q = "") := by
  refine ⟨rfl, rfl, fun q c hc hq => ?_⟩
  subst hq
  simp [research] at hc

/-- C9 witness: the empty query gets the 400 error and makes no gateway
call, while the non-empty query `"x"` does reach the gateway. -/
theorem research_empty_query_rejected_witness :
    (research gwEmpty "" 5).1 =
      .error ⟨400, "Query parameter is required."⟩ ∧
    ("x", 5) ∈ (research gwEmpty "x" 5).2 ∧ ¬ "x" = "" := by
  have h := research_empty_query_rejected gwEmpty 5
  exact ⟨h.1, by decide, h.2.2 "x" ("x", 5) (by decide)⟩

/-- C10: whenever the fetch succeeds, the document handed to the vector
store is exactly `builtDocument info`, whose `page_content` is a string
by construction; it is the sentinel `"No summary available"` whenever
the fetched `Business Summary` is not a string, while the metadata keeps
the normalized `Business Summary` value. -/
theorem stored_document_text_fallback (env : Env) (st : IngestState)
    (t : String) (info : PyDict)
    (hskip : st.successful_tickers.contains t = false)
    (hinfo : env.info t = .ok info) :
    (process_stock env st t).1.store_calls =
      st.store_calls ++ [builtDocument info] ∧
    (isStr (summaryValue info) = false →
      (builtDocument info).page_content = "No summary available") ∧
    dictGet (builtDocument info).metadata "Business Summary" =
      Option.some (normalizeVal (summaryValue info)) := by
  refine ⟨?_, fun hs => ?_, rfl⟩
  · cases ha : env.add_documents (builtDocument info) with
    | error e => rw [process_stock_store_error env st t e info hskip hinfo ha]
    | ok u => cases u; rw [process_stock_success env st t info hskip hinfo ha]
  · have hgoal : (builtDocument info).page_content =
        descriptionOf (summaryValue info) := rfl
    rw [hgoal]
    cases h2 : summaryValue info <;>
      first
        | rfl
        | (rw [h2] at hs; simp [isStr] at hs)

/-- C10 witness: with a list-valued business summary the stored document
text falls back to the sentinel while the metadata keeps the stringified
list. -/
theorem stored_document_text_fallback_witness :
    (process_stock envListSummary stEmpty "LST").1.store_calls =
      [builtDocument infoListSummary] ∧
    (builtDocument infoListSummary).page_content = "No summary available" ∧
    dictGet (builtDocument infoListSummary).metadata "Business Summary" =
      Option.some (PyVal.list [PyVal.str "part one", PyVal.str "2"]) := by
  have h := stored_document_text_fallback envListSummary stEmpty "LST"
    infoListSummary rfl rfl
  have hsum : summaryValue infoListSummary =
      PyVal.list [PyVal.str "part one", PyVal.int 2] := rfl
  refine ⟨h.1, h.2.1 rfl, h.2.2.trans ?_⟩
  rw [hsum]
  simp only [normalizeVal, pyStr, List.map_cons, List.map_nil]
  rfl

end FinancialAnalysis
